import Mathlib

/-!
# The Method — verification of the search-term randomizer core

Shallow embedding of the pattern-to-string rendering engine
(method-logic draft, function generateSpecifierValue and its helpers),
the filter and selector of the page component (activeSearchTerms,
getRandomActiveSearchTerm, randomSpecDay), the URL assembler
(openYouTubeSearch) and the import/export validation logic
(validateSearchPattern, importSimple), with theorems settling the
frozen claims about them.

Modelling conventions:
* strings are lists of characters (Str);
* JavaScript numbers that can be NaN are Option Int (JSNum), none = NaN;
* each call to Math.random() is one element of an injected list of raw
  natural draws, reduced into the requested range exactly where the
  source reduces it: Math.floor(Math.random() * n) becomes r % n, which
  ranges over 0 .. n-1 and is uniform when the raw draw is uniform on a
  multiple of n;
* a JS Date is either a component record (JSDate) where only components
  are read, or a day number (Nat, days since the proleptic year-0 epoch)
  where day arithmetic is performed.
-/

set_option maxRecDepth 10000

abbrev Str := List Char

/-- The characters of a Lean string literal; used to write model strings. -/
def strL (s : String) : Str := s.data

/-- Pop the next raw draw from the injected randomness stream (0 when exhausted). -/
def popRng : List Nat → Nat × List Nat
  | [] => (0, [])
  | r :: rs => (r, rs)

/-- Does the list start with the pattern?  (Helper for the next two.) -/
def hasPre : Str → Str → Bool
  | _, [] => true
  | [], _ :: _ => false
  | c :: cs, p :: ps => c == p && hasPre cs ps

/-- JS String.prototype.includes: substring containment. -/
def containsStr : Str → Str → Bool
  | [], pat => hasPre [] pat
  | c :: cs, pat => hasPre (c :: cs) pat || containsStr cs pat

/-- JS String.prototype.replace with a string pattern: replace the first
occurrence only; when the pattern does not occur the string is unchanged. -/
def replaceFirst : Str → Str → Str → Str
  | [], pat, rep => if hasPre [] pat then rep else []
  | c :: cs, pat, rep =>
      if hasPre (c :: cs) pat then rep ++ (c :: cs).drop pat.length
      else c :: replaceFirst cs pat rep

/-- JS String.prototype.padStart (unchanged when already long enough). -/
def padStart (l : Str) (n : Nat) (c : Char) : Str :=
  List.replicate (n - l.length) c ++ l

/-- The character of a decimal digit (for d < 10). -/
def digitChar (d : Nat) : Char := Char.ofNat (48 + d)

/-- Little-endian decimal digits of n, with fuel (n + 1 always suffices). -/
def natToCharsAux : Nat → Nat → Str
  | 0, _ => []
  | fuel + 1, n =>
      if n < 10 then [digitChar n]
      else digitChar (n % 10) :: natToCharsAux fuel (n / 10)

/-- JS String(n) for a nonnegative integer. -/
def natToChars (n : Nat) : Str := (natToCharsAux (n + 1) n).reverse

/-- A JavaScript number restricted to integer values; none models NaN. -/
abbrev JSNum := Option Int

/-- JS String(x) for an integer-or-NaN number. -/
def jsNumToChars : JSNum → Str
  | none => strL "NaN"
  | some i => if i < 0 then '-' :: natToChars i.natAbs else natToChars i.natAbs

/-- getRandomInt(min, max), source Math.floor(Math.random()*(max-min+1))+min,
with the raw draw r: for min ≤ max this ranges over min..max and is uniform
when r is uniform on a multiple of the range size. -/
def getRandomInt (lo hi r : Nat) : Nat := lo + r % (hi + 1 - lo)

/-- getRandomInt on possibly-NaN bounds (the range-constraint paths);
NaN propagates exactly as in JS arithmetic. -/
def getRandomIntJS : JSNum → JSNum → Nat → JSNum
  | some a, some b, r => some (a + (r : Int) % (b + 1 - a))
  | _, _, _ => none

/-- Math.floor(x / d) for d > 0 (floor division); NaN propagates. -/
def jsDiv : JSNum → Int → JSNum
  | some a, d => some (Int.fdiv a d)
  | none, _ => none

/-- The JS % operator (truncated remainder); NaN propagates. -/
def jsMod : JSNum → Int → JSNum
  | some a, d => some (Int.tmod a d)
  | none, _ => none

/-- The numeric value of a digit character in bases up to 36. -/
def hexDigitVal (c : Char) : Option Nat :=
  if '0' ≤ c ∧ c ≤ '9' then some (c.toNat - 48)
  else if 'a' ≤ c ∧ c ≤ 'z' then some (c.toNat - 87)
  else if 'A' ≤ c ∧ c ≤ 'Z' then some (c.toNat - 55)
  else none

/-- The value of a digit character when admissible in the given base. -/
def digitValInBase (base : Nat) (c : Char) : Option Nat :=
  match hexDigitVal c with
  | some v => if v < base then some v else none
  | none => none

/-- Accumulate the maximal leading digit run; the accumulator stays none
until the first digit, so an empty run yields none. -/
def parseRun (base : Nat) : Str → Option Nat → Option Nat
  | [], acc => acc
  | c :: cs, acc =>
      match digitValInBase base c with
      | some v => parseRun base cs (some (acc.getD 0 * base + v))
      | none => acc

/-- JS parseInt(s, base) for base 10 or 16 (without the 0x-prefix special
case, which no call site exercises): skip leading whitespace, read an
optional sign, then the maximal digit run; NaN when the run is empty. -/
def parseIntJS (s : Str) (base : Nat) : JSNum :=
  let t := s.dropWhile (fun c => c == ' ' || c == '\t' || c == '\n' || c == '\r')
  match t with
  | '-' :: rest => (parseRun base rest none).map (fun n => -(n : Int))
  | '+' :: rest => (parseRun base rest none).map (fun n => (n : Int))
  | _ => (parseRun base t none).map (fun n => (n : Int))

/-- Helper for splitOnChar, carrying the current (reversed) chunk. -/
def splitOnCharAux (sep : Char) : Str → Str → List Str
  | [], acc => [acc.reverse]
  | c :: cs, acc =>
      if c == sep then acc.reverse :: splitOnCharAux sep cs []
      else splitOnCharAux sep cs (c :: acc)

/-- JS String.prototype.split with a single-character separator. -/
def splitOnChar (sep : Char) (s : Str) : List Str := splitOnCharAux sep s []

/-- Pattern age: the TS union of the literals for new, old, and the empty
string (unspecified). -/
inductive Age
  | new
  | old
  | unspecified
deriving DecidableEq, Repr

/-- A constraint value: the TS union string | number. -/
inductive CVal
  | str (s : Str)
  | num (n : Int)
deriving DecidableEq, Repr

/-- JS String(value) on a constraint value. -/
def CVal.toChars : CVal → Str
  | .str s => s
  | .num n => jsNumToChars (some n)

/-- A declarative constraint attached to a pattern (type tag and value). -/
structure Constraint where
  ctype : Str
  value : CVal
deriving DecidableEq, Repr

/-- A catalog pattern as the method-logic draft declares it (single
specifier template). -/
structure MLPattern where
  name : Str
  specifier : Str
  genre : Str
  age : Age
  constraints : List Constraint
deriving DecidableEq, Repr

/-- The components of a JS Date that the renderer reads.  month is 1-based:
the source always uses getMonth() + 1, and indexes month names with
getMonth(), i.e. month - 1. -/
structure JSDate where
  year : Nat
  month : Nat
  day : Nat
  hour : Nat
  minute : Nat
  second : Nat
deriving DecidableEq, Repr

/-- The regex test for a hex letter, applied to the whole value. -/
def hasHexLetter (s : Str) : Bool :=
  s.any (fun c => ('A' ≤ c && c ≤ 'F') || ('a' ≤ c && c ≤ 'f'))

/-- parseRangeConstraint: split on every hyphen, require exactly two parts,
parse both base-16 when the value contains a hex letter, else base-10.
Only a non-two-part split yields null (outer none); a side that fails to
parse yields NaN (inner none), which the caller does not filter out. -/
def parseRangeConstraint (value : Str) : Option (JSNum × JSNum) :=
  match splitOnChar '-' value with
  | [p0, p1] =>
      if hasHexLetter value then some (parseIntJS p0 16, parseIntJS p1 16)
      else some (parseIntJS p0 10, parseIntJS p1 10)
  | _ => none

/-- The month-name table of the renderer. -/
def monthNames : List Str :=
  [strL "January", strL "February", strL "March", strL "April",
   strL "May", strL "June", strL "July", strL "August",
   strL "September", strL "October", strL "November", strL "December"]

/-- getRandomElement(array): array[Math.floor(Math.random() * length)]. -/
def getRandomElement (l : List Str) (r : Nat) : Str := l.getD (r % l.length) []

/-- One numeric-run substitution: the constrained draw when both bounds are
non-null (possibly NaN), else the digit-count default draw; zero-padded to
the run length (String(NaN) pads to 0NaN for a four-character run). -/
def xSubstitution (cbounds : Option (JSNum × JSNum)) (digits r : Nat) : Str :=
  match cbounds with
  | some (a, b) => padStart (jsNumToChars (getRandomIntJS a b r)) digits '0'
  | none => padStart (natToChars (getRandomInt 0 (10 ^ digits - 1) r)) digits '0'

/-- The while-loop over one X pattern: while the pattern occurs, draw and
replace the first occurrence.  The fuel starts at one more than the number
of X characters; this bounds the iteration count because each substitution
removes a full X run and inserts no X character (digits, a minus sign, or
the letters of NaN), so this fueled recursion computes exactly what the
source while-loop computes. -/
def xLoopOne (cbounds : Option (JSNum × JSNum)) (pat : Str) (digits : Nat) :
    Nat → Str → List Nat → Str × List Nat
  | 0, result, rng => (result, rng)
  | fuel + 1, result, rng =>
      if containsStr result pat then
        let (r, rng) := popRng rng
        xLoopOne cbounds pat digits fuel
          (replaceFirst result pat (xSubstitution cbounds digits r)) rng
      else (result, rng)

/-- The xPatterns table, longest run first. -/
def xPatternsList : List (Str × Nat) :=
  [(strL "XXXX", 4), (strL "XXX", 3), (strL "XX", 2), (strL "X", 1)]

/-- The outer for-loop over the X patterns. -/
def xLoopAll (cbounds : Option (JSNum × JSNum)) :
    List (Str × Nat) → Str → List Nat → Str × List Nat
  | [], result, rng => (result, rng)
  | (pat, digits) :: rest, result, rng =>
      let (result, rng) := xLoopOne cbounds pat digits (result.count 'X' + 1) result rng
      xLoopAll cbounds rest result rng

/-- generateSpecifierValue, the placeholder renderer of the method-logic
draft.  rng supplies the raw draws in call order; now supplies the
components of the Date the source takes at entry.  The calendar and clock
tokens form one if/else-if chain on the original specifier; the numeric
X runs are handled afterwards in all cases. -/
def generateSpecifierValue (specifier : Str) (pattern : MLPattern)
    (overrideValue : Option Str) (overrideDate : Option JSDate)
    (now : JSDate) (rng : List Nat) : Str :=
  if overrideValue.getD [] ≠ [] then overrideValue.getD []
  else if specifier = [] then []
  else
    let currentYear := now.year
    let currentMonth := now.month
    let currentDay := now.day
    let isNew := pattern.age = Age.new
    let isOld := pattern.age = Age.old
    let result := specifier
    let step :=
      if containsStr specifier (strL "YYYY MM DD") then
        match overrideDate with
        | some d =>
            (replaceFirst result (strL "YYYY MM DD")
              (natToChars d.year ++ [' '] ++ padStart (natToChars d.month) 2 '0'
                ++ [' '] ++ padStart (natToChars d.day) 2 '0'), rng)
        | none =>
            if isNew then
              (replaceFirst result (strL "YYYY MM DD")
                (natToChars currentYear ++ [' ']
                  ++ padStart (natToChars currentMonth) 2 '0' ++ [' ']
                  ++ padStart (natToChars currentDay) 2 '0'), rng)
            else if isOld then
              let (r1, rng) := popRng rng
              let (r2, rng) := popRng rng
              let (r3, rng) := popRng rng
              (replaceFirst result (strL "YYYY MM DD")
                (natToChars (getRandomInt 2010 2015 r1) ++ [' ']
                  ++ padStart (natToChars (getRandomInt 1 12 r2)) 2 '0' ++ [' ']
                  ++ padStart (natToChars (getRandomInt 1 28 r3)) 2 '0'), rng)
            else
              let (r1, rng) := popRng rng
              let (r2, rng) := popRng rng
              let (r3, rng) := popRng rng
              (replaceFirst result (strL "YYYY MM DD")
                (natToChars (getRandomInt 2010 currentYear r1) ++ [' ']
                  ++ padStart (natToChars (getRandomInt 1 12 r2)) 2 '0' ++ [' ']
                  ++ padStart (natToChars (getRandomInt 1 28 r3)) 2 '0'), rng)
      else if containsStr specifier (strL "YYYYMMDD") then
        match overrideDate with
        | some d =>
            (replaceFirst result (strL "YYYYMMDD")
              (natToChars d.year ++ padStart (natToChars d.month) 2 '0'
                ++ padStart (natToChars d.day) 2 '0'), rng)
        | none =>
            if isNew then
              (replaceFirst result (strL "YYYYMMDD")
                (natToChars currentYear ++ padStart (natToChars currentMonth) 2 '0'
                  ++ padStart (natToChars currentDay) 2 '0'), rng)
            else if isOld then
              let (r1, rng) := popRng rng
              let (r2, rng) := popRng rng
              let (r3, rng) := popRng rng
              (replaceFirst result (strL "YYYYMMDD")
                (natToChars (getRandomInt 2010 2015 r1)
                  ++ padStart (natToChars (getRandomInt 1 12 r2)) 2 '0'
                  ++ padStart (natToChars (getRandomInt 1 28 r3)) 2 '0'), rng)
            else
              let (r1, rng) := popRng rng
              let (r2, rng) := popRng rng
              let (r3, rng) := popRng rng
              (replaceFirst result (strL "YYYYMMDD")
                (natToChars (getRandomInt 2010 currentYear r1)
                  ++ padStart (natToChars (getRandomInt 1 12 r2)) 2 '0'
                  ++ padStart (natToChars (getRandomInt 1 28 r3)) 2 '0'), rng)
      else if containsStr specifier (strL "YYYY MM") then
        match overrideDate with
        | some d =>
            (replaceFirst result (strL "YYYY MM")
              (natToChars d.year ++ [' '] ++ padStart (natToChars d.month) 2 '0'), rng)
        | none =>
            if isNew then
              (replaceFirst result (strL "YYYY MM")
                (natToChars currentYear ++ [' ']
                  ++ padStart (natToChars currentMonth) 2 '0'), rng)
            else if isOld then
              let (r1, rng) := popRng rng
              let (r2, rng) := popRng rng
              (replaceFirst result (strL "YYYY MM")
                (natToChars (getRandomInt 2010 2015 r1) ++ [' ']
                  ++ padStart (natToChars (getRandomInt 1 12 r2)) 2 '0'), rng)
            else
              let (r1, rng) := popRng rng
              let (r2, rng) := popRng rng
              (replaceFirst result (strL "YYYY MM")
                (natToChars (getRandomInt 2010 currentYear r1) ++ [' ']
                  ++ padStart (natToChars (getRandomInt 1 12 r2)) 2 '0'), rng)
      else if containsStr specifier (strL "Month DD, YYYY") then
        match overrideDate with
        | some d =>
            (replaceFirst result (strL "Month DD, YYYY")
              (monthNames.getD (d.month - 1) [] ++ [' '] ++ natToChars d.day
                ++ strL ", " ++ natToChars d.year), rng)
        | none =>
            if isNew then
              (replaceFirst result (strL "Month DD, YYYY")
                (monthNames.getD (currentMonth - 1) [] ++ [' ']
                  ++ natToChars currentDay ++ strL ", " ++ natToChars currentYear), rng)
            else if isOld then
              let (r1, rng) := popRng rng
              let (r2, rng) := popRng rng
              let (r3, rng) := popRng rng
              (replaceFirst result (strL "Month DD, YYYY")
                (getRandomElement monthNames r2 ++ [' ']
                  ++ natToChars (getRandomInt 1 28 r3) ++ strL ", "
                  ++ natToChars (getRandomInt 2010 2015 r1)), rng)
            else
              let (r1, rng) := popRng rng
              let (r2, rng) := popRng rng
              let (r3, rng) := popRng rng
              (replaceFirst result (strL "Month DD, YYYY")
                (getRandomElement monthNames r2 ++ [' ']
                  ++ natToChars (getRandomInt 1 28 r3) ++ strL ", "
                  ++ natToChars (getRandomInt 2010 currentYear r1)), rng)
      else if containsStr specifier (strL "YYYY") then
        match overrideDate with
        | some d => (replaceFirst result (strL "YYYY") (natToChars d.year), rng)
        | none =>
            if isNew then
              (replaceFirst result (strL "YYYY") (natToChars currentYear), rng)
            else if isOld then
              let (r1, rng) := popRng rng
              (replaceFirst result (strL "YYYY")
                (natToChars (getRandomInt 2010 2015 r1)), rng)
            else
              let (r1, rng) := popRng rng
              (replaceFirst result (strL "YYYY")
                (natToChars (getRandomInt 2010 currentYear r1)), rng)
      else if containsStr specifier (strL "HHMMSS") then
        match overrideDate with
        | some d =>
            (replaceFirst result (strL "HHMMSS")
              (padStart (natToChars d.hour) 2 '0' ++ padStart (natToChars d.minute) 2 '0'
                ++ padStart (natToChars d.second) 2 '0'), rng)
        | none =>
            match pattern.constraints.find?
                (fun c => c.ctype == strL "range" || c.ctype == strL "time-range") with
            | some tc =>
                match parseRangeConstraint tc.value.toChars with
                | some (a, b) =>
                    let (r, rng) := popRng rng
                    let rt := getRandomIntJS a b r
                    (replaceFirst result (strL "HHMMSS")
                      (padStart (jsNumToChars (jsDiv rt 10000)) 2 '0'
                        ++ padStart (jsNumToChars (jsDiv (jsMod rt 10000) 100)) 2 '0'
                        ++ padStart (jsNumToChars (jsMod rt 100)) 2 '0'), rng)
                | none =>
                    let (r1, rng) := popRng rng
                    let (r2, rng) := popRng rng
                    let (r3, rng) := popRng rng
                    (replaceFirst result (strL "HHMMSS")
                      (padStart (natToChars (getRandomInt 0 23 r1)) 2 '0'
                        ++ padStart (natToChars (getRandomInt 0 59 r2)) 2 '0'
                        ++ padStart (natToChars (getRandomInt 0 59 r3)) 2 '0'), rng)
            | none =>
                let (r1, rng) := popRng rng
                let (r2, rng) := popRng rng
                let (r3, rng) := popRng rng
                (replaceFirst result (strL "HHMMSS")
                  (padStart (natToChars (getRandomInt 0 23 r1)) 2 '0'
                    ++ padStart (natToChars (getRandomInt 0 59 r2)) 2 '0'
                    ++ padStart (natToChars (getRandomInt 0 59 r3)) 2 '0'), rng)
      else (result, rng)
    let result := step.1
    let rng := step.2
    let cbounds : Option (JSNum × JSNum) :=
      match pattern.constraints.find? (fun c => c.ctype == strL "range") with
      | some rc =>
          match parseRangeConstraint rc.value.toChars with
          | some (a, b) => some (a, b)
          | none => none
      | none => none
    (xLoopAll cbounds xPatternsList result rng).1

/-- JS >= on possibly-NaN numbers: any comparison with NaN is false. -/
def jsGE : JSNum → JSNum → Bool
  | some a, some b => a ≥ b
  | _, _ => false

/-- JS <= on possibly-NaN numbers: any comparison with NaN is false. -/
def jsLE : JSNum → JSNum → Bool
  | some a, some b => a ≤ b
  | _, _ => false

/-- meetsDateConstraints: find the first date-before/date-after constraint;
with none the pattern passes; else compare the check year (of the supplied
date, defaulting to the clock) against the parsed constraint year. -/
def meetsDateConstraints (p : MLPattern) (date : Option JSDate) (now : JSDate) : Bool :=
  match p.constraints.find?
      (fun c => c.ctype == strL "date-before" || c.ctype == strL "date-after") with
  | none => true
  | some dc =>
      let checkDate := date.getD now
      let constraintYear : JSNum :=
        match dc.value with
        | .str s => parseIntJS s 10
        | .num n => some n
      if dc.ctype == strL "date-before" then jsGE (some checkDate.year) constraintYear
      else jsLE (some checkDate.year) constraintYear

/-- The filter options of the method-logic draft.  The age field only
admits the two settable literals in TS; absence is none. -/
structure FilterOptions where
  age : Option Age := none
  genre : Option Str := none
  hasConstraints : Option Bool := none

/-- filterPatterns: the three optional filters in source order, then the
date-constraint filter. -/
def filterPatterns (patterns : List MLPattern) (filters : Option FilterOptions)
    (overrideDate : Option JSDate) (now : JSDate) : List MLPattern :=
  let afterFilters :=
    match filters with
    | none => patterns
    | some fs =>
        let a :=
          match fs.age with
          | some ag => patterns.filter (fun (p : MLPattern) => p.age == ag || p.age == Age.unspecified)
          | none => patterns
        let b :=
          match fs.genre with
          | some g => a.filter (fun (p : MLPattern) => p.genre == g)
          | none => a
        match fs.hasConstraints with
        | some hc =>
            b.filter (fun (p : MLPattern) => if hc then p.constraints.length > 0 else p.constraints.length == 0)
        | none => b
  afterFilters.filter (fun p => meetsDateConstraints p overrideDate now)

/-- The whitespace class of JS String.prototype.trim (the characters that
occur in this catalog's data; the full class also holds further Unicode
space separators). -/
def isJSWS (c : Char) : Bool :=
  c == ' ' || c == '\t' || c == '\n' || c == '\r'
    || c == Char.ofNat 11 || c == Char.ofNat 12 || c == Char.ofNat 0xA0

/-- JS String.prototype.trim: strip leading and trailing whitespace. -/
def trimStr (s : Str) : Str :=
  ((s.dropWhile isJSWS).reverse.dropWhile isJSWS).reverse

/-- The options record of generateRandomSearchTerm. -/
structure GenerateOptions where
  filters : Option FilterOptions := none
  overrideName : Option Str := none
  overrideSpecifierValue : Option Str := none
  overrideDate : Option JSDate := none

/-- generateRandomSearchTerm (part_000 lines 275-297): filter the catalog,
throw when empty, draw one pattern, render its specifier, and return the
trimmed concatenation of name and rendered specifier. -/
def generateRandomSearchTerm (patterns : List MLPattern) (options : Option GenerateOptions)
    (now : JSDate) (rng : List Nat) : Except Str Str :=
  let filtered := filterPatterns patterns (options.bind (·.filters))
    (options.bind (·.overrideDate)) now
  if filtered = [] then .error (strL "No patterns match the specified filters")
  else
    let (r, rng) := popRng rng
    let pattern := filtered.getD (r % filtered.length) ⟨[], [], [], Age.unspecified, []⟩
    let name := (options.bind (·.overrideName)).getD pattern.name
    let specifierValue := generateSpecifierValue pattern.specifier pattern
      (options.bind (·.overrideSpecifierValue)) (options.bind (·.overrideDate)) now rng
    .ok (trimStr (name ++ specifierValue))

/-- A record as the page component holds it: name, specifier templates,
genre, age, the pair-shaped constraint of custom terms, and the
user-created flag.  The three date fields are the properties randomSpecDay
reads; no record shape declares them, so they are undefined (none) on
every catalog or custom record; when present they are modelled as already
parsed day numbers. -/
structure PageTerm where
  name : Str
  specifiers : List Str
  genre : Str
  age : Age
  constraint : Str × Str := ([], [])
  isCustom : Bool := false
  dateBefore : Option Nat := none
  dateAfter : Option Nat := none
  dateExact : Option Nat := none
deriving DecidableEq, Repr

/-- The age dropdown state of the page. -/
inductive AgeSel
  | any
  | new
  | old
deriving DecidableEq, Repr

/-- The string comparison of a pattern age against the selected age. -/
def ageMatches : Age → AgeSel → Bool
  | Age.new, AgeSel.new => true
  | Age.old, AgeSel.old => true
  | _, _ => false

/-- The name-plus-specifier key of the page component. -/
def displayKey (name spec : Str) : Str := name ++ strL "|||" ++ spec

/-- The body of the activeSearchTerms reactive filter: the genre check,
the age block (whose early accept for unspecified-age patterns skips the
rest of the filter), then the name-plus-specifier check.  The JS Sets are
modelled as lists: size > 0 is nonemptiness and has is membership. -/
def activeFilter (selectedGenres selectedNames : List Str) (selectedAge : AgeSel)
    (p : PageTerm) : Bool :=
  if selectedGenres ≠ [] ∧ p.genre ∉ selectedGenres then false
  else if selectedAge ≠ AgeSel.any ∧ p.age ≠ Age.unspecified
      ∧ ageMatches p.age selectedAge = false then false
  else if selectedAge ≠ AgeSel.any ∧ p.age = Age.unspecified then true
  else if selectedNames ≠ []
      ∧ (p.specifiers.any fun s => decide (displayKey p.name s ∈ selectedNames)) = false then
    false
  else true

/-- getRandomActiveSearchTerm: draw one pattern uniformly from the active
list (none when it is empty), then one specifier uniformly from that
pattern's selected specifiers, falling back to the pattern's first
specifier (undefined, none, when it has no specifiers at all). -/
def getRandomActiveSearchTerm (active : List PageTerm) (selectedNames : List Str)
    (r1 r2 : Nat) : Option (PageTerm × Option Str) :=
  match active with
  | [] => none
  | a :: rest =>
      let l := a :: rest
      let p := l.getD (r1 % l.length) a
      let validSpecifiers :=
        p.specifiers.filter (fun s => decide (displayKey p.name s ∈ selectedNames))
      let spec : Option Str :=
        match validSpecifiers with
        | [] => p.specifiers.head?
        | v :: vs => some ((v :: vs).getD (r2 % (v :: vs).length) v)
      some (p, spec)

/-- The Gregorian leap-year test. -/
def isLeapYear (y : Nat) : Bool := (y % 4 == 0 && y % 100 != 0) || y % 400 == 0

/-- The length of a calendar year. -/
def yearLen (y : Nat) : Nat := if isLeapYear y then 366 else 365

/-- Days from the proleptic year-0 epoch to January 1 of the given year. -/
def daysBeforeYear : Nat → Nat
  | 0 => 0
  | y + 1 => daysBeforeYear y + yearLen y

/-- The calendar year containing a day number: the greatest year whose
January 1 is not after the day. -/
def yearOfDay (n : Nat) : Nat := Nat.findGreatest (fun y => daysBeforeYear y ≤ n) n

/-- The month lengths of a year. -/
def monthLengths (y : Nat) : List Nat :=
  [31, if isLeapYear y then 29 else 28, 31, 30, 31, 30, 31, 31, 30, 31, 30, 31]

/-- Days from January 1 to the first of the (1-based) month. -/
def daysBeforeMonth (y m : Nat) : Nat := ((monthLengths y).take (m - 1)).sum

/-- The (1-based) month containing a day number. -/
def monthOfDay (n : Nat) : Nat :=
  Nat.findGreatest (fun m => daysBeforeMonth (yearOfDay n) m ≤ n - daysBeforeYear (yearOfDay n)) 12

/-- The (1-based) day of month of a day number (JS getDate()). -/
def dayOfMonthOfDay (n : Nat) : Nat :=
  n - daysBeforeYear (yearOfDay n) - daysBeforeMonth (yearOfDay n) (monthOfDay n) + 1

/-- JS setDate(v) on a day number for v ≥ 1: the first of the current
month plus v - 1 days (overflow rolls into later months exactly as day
arithmetic does). -/
def setDayOfMonth (n v : Nat) : Nat := (n - (dayOfMonthOfDay n - 1)) + (v - 1)

/-- randomSpecDay: the age-based uniform day range (3650 days when the old
range applies, 365 for the new one, today itself otherwise), overridden by
the pattern's date-before / date-after / date-exact properties when they
are present.  The source's Math.ceil on a millisecond difference is the
whole-day difference here. -/
def randomSpecDay (selectedAge : AgeSel) (p : PageTerm) (today : Nat)
    (rng : List Nat) : Nat :=
  let pick :=
    match selectedAge with
    | AgeSel.any =>
        match p.age with
        | Age.old => let (r, rng) := popRng rng; (r % 3650, rng)
        | Age.new => let (r, rng) := popRng rng; (r % 365, rng)
        | Age.unspecified => (0, rng)
    | AgeSel.old => let (r, rng) := popRng rng; (r % 3650, rng)
    | AgeSel.new => let (r, rng) := popRng rng; (r % 365, rng)
  let randomDays := pick.1
  let rng := pick.2
  match p.dateBefore with
  | some cd =>
      let diffDays := (today - cd) + (cd - today)
      let (r, _) := popRng rng
      today - (if diffDays = 0 then 0 else r % diffDays)
  | none =>
      match p.dateAfter with
      | some cd =>
          let diffDays := (cd - today) + (today - cd)
          let (r, _) := popRng rng
          setDayOfMonth today (dayOfMonthOfDay cd + (if diffDays = 0 then 0 else r % diffDays))
      | none =>
          match p.dateExact with
          | some e => e
          | none => today - randomDays

/-- The UTF-8 bytes of a character (as naturals below 256). -/
def utf8Bytes (c : Char) : List Nat :=
  let n := c.toNat
  if n < 0x80 then [n]
  else if n < 0x800 then [0xC0 + n / 64, 0x80 + n % 64]
  else if n < 0x10000 then [0xE0 + n / 4096, 0x80 + (n / 64) % 64, 0x80 + n % 64]
  else [0xF0 + n / 262144, 0x80 + (n / 4096) % 64, 0x80 + (n / 64) % 64, 0x80 + n % 64]

/-- An uppercase hexadecimal digit character. -/
def hexDigitUpper (d : Nat) : Char := if d < 10 then digitChar d else Char.ofNat (55 + d)

/-- The percent-encoding of one byte. -/
def pctEncByte (b : Nat) : Str := ['%', hexDigitUpper (b / 16), hexDigitUpper (b % 16)]

/-- The characters encodeURIComponent leaves unescaped. -/
def isURIUnescaped (c : Char) : Bool :=
  ('A' ≤ c && c ≤ 'Z') || ('a' ≤ c && c ≤ 'z') || ('0' ≤ c && c ≤ '9')
    || c == '-' || c == '_' || c == '.' || c == '!' || c == '~' || c == '*'
    || c == Char.ofNat 39 || c == '(' || c == ')'

/-- JS encodeURIComponent: unescaped characters pass through, every other
character becomes the percent-encoding of its UTF-8 bytes. -/
def encodeURIComponent (s : Str) : Str :=
  s.flatMap fun c => if isURIUnescaped c then [c] else (utf8Bytes c).flatMap pctEncByte

/-- new Date on a dash-separated date string followed by getFullYear,
getMonth() + 1 and getDate(), as the URL assembler reads it back.  (The
UTC-versus-local offset of JS date parsing is outside the model.) -/
def parseDateYMD (s : Str) : Nat × Nat × Nat :=
  match splitOnChar '-' s with
  | [ys, ms, ds] =>
      (((parseIntJS ys 10).getD 0).toNat, ((parseIntJS ms 10).getD 0).toNat,
        ((parseIntJS ds 10).getD 0).toNat)
  | _ => (0, 0, 0)

/-- openYouTubeSearch (part_003 lines 256-281): append the before
qualifier in slash form when advanced settings, the date override and a
date are all present; percent-encode the whole query; glue it to the
fixed endpoint; and always append the fixed sort-by-upload-date
parameter. -/
def openYouTubeSearch (searchTerm : Str) (showAdvancedSettings enableDateOverride : Bool)
    (beforeDate : Str) : Str :=
  let searchQuery :=
    if showAdvancedSettings && enableDateOverride && !beforeDate.isEmpty then
      let ymd := parseDateYMD beforeDate
      searchTerm ++ strL " before:" ++ natToChars ymd.1 ++ ['/']
        ++ padStart (natToChars ymd.2.1) 2 '0' ++ ['/']
        ++ padStart (natToChars ymd.2.2) 2 '0'
    else searchTerm
  strL "https://www.youtube.com/results?search_query="
    ++ encodeURIComponent searchQuery ++ strL "&sp=CAI%253D"

/-- Force the user-created flag, as the import spread does. -/
def setCustomTrue (t : PageTerm) : PageTerm := { t with isCustom := true }

/-- validateSearchPattern: a truthy name with nonblank trim, or some
truthy specifier with nonblank trim (the typed model makes the source's
array-existence checks vacuous). -/
def validateSearchPattern (t : PageTerm) : Bool :=
  (!t.name.isEmpty && !(trimStr t.name).isEmpty)
    || t.specifiers.any (fun s => !s.isEmpty && !(trimStr s).isEmpty)

/-- The record transformation of importSimple after JSON parsing: keep the
records that validate, with the user-created flag force-set, counting
successes and failures; the resulting list replaces the stored set. -/
def importSimpleTerms (imported : List PageTerm) : List PageTerm × Nat × Nat :=
  imported.foldl
    (fun acc t =>
      if validateSearchPattern t then (acc.1 ++ [setCustomTrue t], acc.2.1 + 1, acc.2.2)
      else (acc.1, acc.2.1, acc.2.2 + 1))
    ([], 0, 0)

/-- exportCustomTerms writes the stored record list as a JSON array and
re-importing parses that array back; JSON serialization of a record list
is injective and parsing inverts it, so the export-then-parse boundary is
the identity on the record list. -/
def exportCustomTerms (stored : List PageTerm) : List PageTerm := stored

/-- The age rule the renderer's year branches implement, assembled from
the source's year branches for the statements below: the clock year for a
new pattern, a fixed 2010-2015 draw for an old one, a 2010-to-clock-year
draw otherwise. -/
def ageBasedYear (a : Age) (currentYear r : Nat) : Nat :=
  match a with
  | Age.new => currentYear
  | Age.old => getRandomInt 2010 2015 r
  | Age.unspecified => getRandomInt 2010 currentYear r

/-- The residual age predicate of the activeSearchTerms filter: pass when
the selected age is any, the pattern age is unspecified, or the two match. -/
def agePass (sa : AgeSel) (a : Age) : Bool :=
  sa == AgeSel.any || a == Age.unspecified || ageMatches a sa

/-- A pattern carrying the admissible-year constraint set 2012, 2013. -/
def yearConstrainedPattern : MLPattern :=
  ⟨strL "T", strL "YYYY", strL "Misc", Age.unspecified,
   [⟨strL "year", CVal.num 2012⟩, ⟨strL "year", CVal.num 2013⟩]⟩

/-- An old-age pattern with a year template and no constraints. -/
def oldYearPattern : MLPattern := ⟨strL "T", strL "YYYY", strL "Misc", Age.old, []⟩

/-- A new-age pattern whose template has a calendar and a clock token. -/
def newClockPattern : MLPattern := ⟨strL "T", strL "YYYY HHMMSS", strL "Misc", Age.new, []⟩

/-- A pattern with the malformed two-part range constraint gg-gg. -/
def badRangePattern : MLPattern :=
  ⟨strL "T", strL "XXXX", strL "Misc", Age.unspecified,
   [⟨strL "range", CVal.str (strL "gg-gg")⟩]⟩

/-- The same four-run pattern without any constraint. -/
def noConstraintPattern : MLPattern :=
  ⟨strL "T", strL "XXXX", strL "Misc", Age.unspecified, []⟩

/-- A two-run pattern with the range constraint 10-12. -/
def sharedRangePattern : MLPattern :=
  ⟨strL "T", strL "XX XX", strL "Misc", Age.unspecified,
   [⟨strL "range", CVal.str (strL "10-12")⟩]⟩

/-- A pattern whose range constraint value 123 is not two-part. -/
def nonTwoPartPattern : MLPattern :=
  ⟨strL "T", strL "XX", strL "Misc", Age.unspecified,
   [⟨strL "range", CVal.str (strL "123")⟩]⟩

/-- A single-specifier catalog entry (selection example). -/
def unitPatternA : PageTerm :=
  { name := strL "A", specifiers := [strL "s"], genre := strL "M", age := Age.unspecified }

/-- A two-specifier catalog entry (selection example). -/
def unitPatternB : PageTerm :=
  { name := strL "B", specifiers := [strL "t", strL "u"], genre := strL "M",
    age := Age.unspecified }

/-- All three unit keys of the two selection-example entries. -/
def allUnitKeys : List Str :=
  [displayKey (strL "A") (strL "s"), displayKey (strL "B") (strL "t"),
   displayKey (strL "B") (strL "u")]

/-- The outcomes of the selector over the 2-by-2 grid of equally likely
raw draw pairs on the two-entry catalog with every key active. -/
def selectionGrid : List (Option (PageTerm × Option Str)) :=
  (List.range 2).flatMap fun i => (List.range 2).map fun j =>
    getRandomActiveSearchTerm [unitPatternA, unitPatternB] allUnitKeys i j

/-- An unspecified-age catalog entry whose only unit key is Bar|||T. -/
def unspecifiedAgeEntry : PageTerm :=
  { name := strL "Bar", specifiers := [strL "T"], genre := strL "M", age := Age.unspecified }

/-- A catalog pattern whose name carries trailing whitespace and whose
specifier is empty. -/
def trailingNamePattern : MLPattern := ⟨strL "Name ", [], strL "Misc", Age.unspecified, []⟩

/-- A catalog pattern with empty name and empty specifier. -/
def emptyNamePattern : MLPattern := ⟨[], [], strL "Misc", Age.unspecified, []⟩

/-- An old-age page record with a year template and no constraints. -/
def oldPagePattern : PageTerm :=
  { name := strL "O", specifiers := [strL "YYYY"], genre := strL "M", age := Age.old }

/-- A user-created record as the custom-term form saves it. -/
def sampleCustomTerm : PageTerm :=
  { name := strL "My Term", specifiers := [strL "YYYY"], genre := strL "Custom",
    age := Age.new, isCustom := true }

lemma yearLen_ge (y : Nat) : 365 ≤ yearLen y := by
  unfold yearLen; split <;> omega

lemma daysBeforeYear_add_le (y k : Nat) :
    daysBeforeYear y + 365 * k ≤ daysBeforeYear (y + k) := by
  induction k with
  | zero => simp
  | succ k ih =>
      have h1 := yearLen_ge (y + k)
      have h2 : daysBeforeYear (y + (k + 1)) = daysBeforeYear (y + k) + yearLen (y + k) := rfl
      omega

lemma le_daysBeforeYear (y : Nat) : 365 * y ≤ daysBeforeYear y := by
  have h := daysBeforeYear_add_le 0 y
  rw [Nat.zero_add] at h
  have h0 : daysBeforeYear 0 = 0 := rfl
  omega

lemma daysBeforeYear_mono {y z : Nat} (h : y ≤ z) :
    daysBeforeYear y ≤ daysBeforeYear z := by
  have h2 : y + (z - y) = z := by omega
  have h1 := daysBeforeYear_add_le y (z - y)
  rw [h2] at h1
  omega

lemma daysBeforeYear_yearOfDay_le (n : Nat) : daysBeforeYear (yearOfDay n) ≤ n := by
  have h0 : daysBeforeYear 0 ≤ n := by simp [daysBeforeYear]
  exact @Nat.findGreatest_spec 0 (fun y => daysBeforeYear y ≤ n) _ n (Nat.zero_le n) h0

lemma lt_daysBeforeYear_of_yearOfDay_lt {n k : Nat} (h : yearOfDay n < k) :
    n < daysBeforeYear k := by
  by_cases hk : k ≤ n
  · have h1 := @Nat.findGreatest_is_greatest k (fun y => daysBeforeYear y ≤ n) _ n h hk
    omega
  · have h1 : 365 * k ≤ daysBeforeYear k := le_daysBeforeYear k
    omega

lemma yearOfDay_mono {m n : Nat} (h : m ≤ n) : yearOfDay m ≤ yearOfDay n := by
  have h1 : daysBeforeYear (yearOfDay m) ≤ m := daysBeforeYear_yearOfDay_le m
  have h2 : yearOfDay m ≤ m := @Nat.findGreatest_le (fun y => daysBeforeYear y ≤ m) _ m
  exact @Nat.le_findGreatest (yearOfDay m) (fun y => daysBeforeYear y ≤ n) _ n
    (le_trans h2 h) (le_trans h1 h)

/-- Going back fewer than 3650 days moves the calendar year back by at
most 10: ten consecutive years always span at least 3650 days. -/
lemma yearOfDay_sub_le (n r : Nat) (hr : r < 3650) (hn : r ≤ n) :
    yearOfDay n ≤ yearOfDay (n - r) + 10 := by
  by_contra hcon
  push_neg at hcon
  have h1 : n - r < daysBeforeYear (yearOfDay (n - r) + 1) :=
    lt_daysBeforeYear_of_yearOfDay_lt (by omega)
  have h2 := daysBeforeYear_add_le (yearOfDay (n - r) + 1) 10
  have h3 : daysBeforeYear (yearOfDay (n - r) + 1 + 10) ≤ daysBeforeYear (yearOfDay n) :=
    daysBeforeYear_mono (by omega)
  have h4 : daysBeforeYear (yearOfDay n) ≤ n := daysBeforeYear_yearOfDay_le n
  omega

lemma getRandomInt_bounds {lo hi : Nat} (r : Nat) (h : lo ≤ hi) :
    lo ≤ getRandomInt lo hi r ∧ getRandomInt lo hi r ≤ hi := by
  unfold getRandomInt
  have h1 : r % (hi + 1 - lo) < hi + 1 - lo := Nat.mod_lt _ (by omega)
  omega

lemma digitChar_not_X {d : Nat} (hd : d < 10) : digitChar d ≠ 'X' := by
  interval_cases d <;> decide

lemma mem_natToCharsAux {fuel n : Nat} {c : Char} (h : c ∈ natToCharsAux fuel n) :
    ∃ d, d < 10 ∧ c = digitChar d := by
  induction fuel generalizing n with
  | zero => simp [natToCharsAux] at h
  | succ fuel ih =>
      unfold natToCharsAux at h
      by_cases h10 : n < 10
      · simp [h10] at h
        exact ⟨n, h10, h⟩
      · simp [h10] at h
        rcases h with h | h
        · exact ⟨n % 10, Nat.mod_lt _ (by omega), h⟩
        · exact ih h

lemma mem_natToChars {n : Nat} {c : Char} (h : c ∈ natToChars n) :
    ∃ d, d < 10 ∧ c = digitChar d := by
  unfold natToChars at h
  exact mem_natToCharsAux (List.mem_reverse.mp h)

lemma natToChars_not_X (n : Nat) : 'X' ∉ natToChars n := by
  intro h
  obtain ⟨d, hd, hc⟩ := mem_natToChars h
  exact digitChar_not_X hd hc.symm

lemma containsStr_eq_false {l : Str} {p : Char} {ps : Str} (h : p ∉ l) :
    containsStr l (p :: ps) = false := by
  induction l with
  | nil => simp [containsStr, hasPre]
  | cons c cs ih =>
      have hcp : ¬ (c = p) := fun e => h (e ▸ List.mem_cons_self c cs)
      simp only [containsStr, hasPre, Bool.or_eq_false_iff, Bool.and_eq_false_iff]
      constructor
      · left
        simp [beq_iff_eq, hcp]
      · exact ih (fun hm => h (List.mem_cons_of_mem _ hm))

lemma containsStr_append_left {l₁ l₂ : Str} {p : Char} {ps : Str} (h : p ∉ l₁) :
    containsStr (l₁ ++ l₂) (p :: ps) = containsStr l₂ (p :: ps) := by
  induction l₁ with
  | nil => simp
  | cons c cs ih =>
      have hcp : ¬ (c = p) := fun e => h (e ▸ List.mem_cons_self c cs)
      have ih2 := ih (fun hm => h (List.mem_cons_of_mem _ hm))
      simp only [List.cons_append, containsStr, hasPre, beq_iff_eq]
      simp [hcp, ih2]

lemma replaceFirst_append_left {l₁ l₂ : Str} {p : Char} {ps rep : Str} (h : p ∉ l₁) :
    replaceFirst (l₁ ++ l₂) (p :: ps) rep = l₁ ++ replaceFirst l₂ (p :: ps) rep := by
  induction l₁ with
  | nil => simp
  | cons c cs ih =>
      have hcp : ¬ (c = p) := fun e => h (e ▸ List.mem_cons_self c cs)
      have ih2 := ih (fun hm => h (List.mem_cons_of_mem _ hm))
      simp only [List.cons_append, replaceFirst, hasPre, beq_iff_eq]
      simp [hcp, ih2]

lemma replaceFirst_of_hasPre {l pat rep : Str} (h : hasPre l pat = true) :
    replaceFirst l pat rep = rep ++ l.drop pat.length := by
  cases l with
  | nil =>
      cases pat with
      | nil => simp [replaceFirst, hasPre]
      | cons p ps => simp [hasPre] at h
  | cons c cs => simp [replaceFirst, h]

lemma xLoopOne_not_contains {cb : Option (JSNum × JSNum)} {pat : Str} {digits fuel : Nat}
    {result : Str} {rng : List Nat} (h : containsStr result pat = false) :
    xLoopOne cb pat digits (fuel + 1) result rng = (result, rng) := by
  simp [xLoopOne, h]

lemma xLoopOne_step {cb : Option (JSNum × JSNum)} {pat : Str} {digits fuel : Nat}
    {result : Str} {rng : List Nat} (h : containsStr result pat = true) :
    xLoopOne cb pat digits (fuel + 1) result rng =
      xLoopOne cb pat digits fuel
        (replaceFirst result pat (xSubstitution cb digits (popRng rng).1)) (popRng rng).2 := by
  simp [xLoopOne, h]

lemma notX_append {l₁ l₂ : Str} (h1 : 'X' ∉ l₁) (h2 : 'X' ∉ l₂) : 'X' ∉ l₁ ++ l₂ := by
  intro h
  rcases List.mem_append.mp h with h | h
  · exact h1 h
  · exact h2 h

set_option maxHeartbeats 1000000 in
lemma genSpec_yyyy_eval (p : MLPattern) (now : JSDate) (rng : List Nat) :
    generateSpecifierValue (strL "YYYY") p none none now rng
      = natToChars (ageBasedYear p.age now.year (popRng rng).1) := by
  have h1 : containsStr (strL "YYYY") (strL "YYYY MM DD") = false := by decide
  have h2 : containsStr (strL "YYYY") (strL "YYYYMMDD") = false := by decide
  have h3 : containsStr (strL "YYYY") (strL "YYYY MM") = false := by decide
  have h4 : containsStr (strL "YYYY") (strL "Month DD, YYYY") = false := by decide
  have h5 : containsStr (strL "YYYY") (strL "YYYY") = true := by decide
  have hpre : hasPre (strL "YYYY") (strL "YYYY") = true := by decide
  have hdrop : (strL "YYYY").drop (strL "YYYY").length = [] := by decide
  have hx4 : strL "XXXX" = 'X' :: strL "XXX" := by decide
  have hx3 : strL "XXX" = 'X' :: strL "XX" := by decide
  have hx2 : strL "XX" = 'X' :: strL "X" := by decide
  have hx1 : strL "X" = 'X' :: strL "" := by decide
  have hnotX : ∀ y : Nat, 'X' ∉ natToChars y ++ ([] : Str) := by
    intro y h
    rw [List.append_nil] at h
    exact natToChars_not_X y h
  obtain ⟨nm, sp, g, a, cs⟩ := p
  cases a <;>
  · simp only [generateSpecifierValue, h1, h2, h3, h4, h5, Bool.false_eq_true, if_false,
      if_true, Option.getD_none, ne_eq, not_true_eq_false, reduceCtorEq]
    simp only [replaceFirst_of_hasPre hpre, hdrop]
    simp only [xLoopAll, xPatternsList, hx4, hx3, hx2, hx1]
    rw [xLoopOne_not_contains (containsStr_eq_false (hnotX _))]
    rw [xLoopOne_not_contains (containsStr_eq_false (hnotX _))]
    rw [xLoopOne_not_contains (containsStr_eq_false (hnotX _))]
    rw [xLoopOne_not_contains (containsStr_eq_false (hnotX _))]
    simp only [ageBasedYear, List.append_nil]
    rw [if_neg (show ¬(strL "YYYY" = ([] : Str)) by decide)]

set_option maxHeartbeats 1000000 in
lemma genSpec_yyyy_hhmmss_eval (p : MLPattern) (now : JSDate) (rng : List Nat) :
    generateSpecifierValue (strL "YYYY HHMMSS") p none none now rng
      = natToChars (ageBasedYear p.age now.year (popRng rng).1) ++ strL " HHMMSS" := by
  have h1 : containsStr (strL "YYYY HHMMSS") (strL "YYYY MM DD") = false := by decide
  have h2 : containsStr (strL "YYYY HHMMSS") (strL "YYYYMMDD") = false := by decide
  have h3 : containsStr (strL "YYYY HHMMSS") (strL "YYYY MM") = false := by decide
  have h4 : containsStr (strL "YYYY HHMMSS") (strL "Month DD, YYYY") = false := by decide
  have h5 : containsStr (strL "YYYY HHMMSS") (strL "YYYY") = true := by decide
  have hpre : hasPre (strL "YYYY HHMMSS") (strL "YYYY") = true := by decide
  have hdrop : (strL "YYYY HHMMSS").drop (strL "YYYY").length = strL " HHMMSS" := by decide
  have hx4 : strL "XXXX" = 'X' :: strL "XXX" := by decide
  have hx3 : strL "XXX" = 'X' :: strL "XX" := by decide
  have hx2 : strL "XX" = 'X' :: strL "X" := by decide
  have hx1 : strL "X" = 'X' :: strL "" := by decide
  have hnotX : ∀ y : Nat, 'X' ∉ natToChars y ++ strL " HHMMSS" :=
    fun y => notX_append (natToChars_not_X y) (by decide)
  obtain ⟨nm, sp, g, a, cs⟩ := p
  cases a <;>
  · simp only [generateSpecifierValue, h1, h2, h3, h4, h5, Bool.false_eq_true, if_false,
      if_true, Option.getD_none, ne_eq, not_true_eq_false, reduceCtorEq]
    simp only [replaceFirst_of_hasPre hpre, hdrop]
    simp only [xLoopAll, xPatternsList, hx4, hx3, hx2, hx1]
    rw [xLoopOne_not_contains (containsStr_eq_false (hnotX _))]
    rw [xLoopOne_not_contains (containsStr_eq_false (hnotX _))]
    rw [xLoopOne_not_contains (containsStr_eq_false (hnotX _))]
    rw [xLoopOne_not_contains (containsStr_eq_false (hnotX _))]
    simp only [ageBasedYear]
    rw [if_neg (show ¬(strL "YYYY HHMMSS" = ([] : Str)) by decide)]

lemma natToCharsAux_small (fuel n : Nat) (h : n < 10) (hf : 0 < fuel) :
    natToCharsAux fuel n = [digitChar n] := by
  cases fuel with
  | zero => omega
  | succ f => simp [natToCharsAux, h]

lemma natToChars_two {n : Nat} (h10 : 10 ≤ n) (h100 : n < 100) :
    natToChars n = [digitChar (n / 10), digitChar (n % 10)] := by
  unfold natToChars
  simp only [natToCharsAux]
  rw [if_neg (by omega)]
  rw [natToCharsAux_small n (n / 10) (by omega) (by omega)]
  simp

lemma jsNumToChars_ofNat (n : Nat) : jsNumToChars (some (n : Int)) = natToChars n := by
  simp only [jsNumToChars]
  rw [if_neg (by omega)]
  simp

lemma getRandomIntJS_ten_twelve (r : Nat) :
    getRandomIntJS (some 10) (some 12) r = some ((10 + r % 3 : Nat) : Int) := by
  simp only [getRandomIntJS]
  congr 1

lemma sharedSub (r : Nat) :
    xSubstitution (some (some 10, some 12)) 2 r = natToChars (10 + r % 3) := by
  simp only [xSubstitution]
  rw [getRandomIntJS_ten_twelve, jsNumToChars_ofNat]
  have hlen : (natToChars (10 + r % 3)).length = 2 := by
    rw [natToChars_two (by omega) (by omega)]
    rfl
  unfold padStart
  rw [hlen]
  simp

lemma xLoopOne_exit {cb : Option (JSNum × JSNum)} {pat : Str} {digits : Nat}
    {result : Str} {rng : List Nat} (fuel : Nat) (h : containsStr result pat = false) :
    xLoopOne cb pat digits fuel result rng = (result, rng) := by
  cases fuel with
  | zero => rfl
  | succ f => simp [xLoopOne, h]

lemma xLoopOne_step2 {cb : Option (JSNum × JSNum)} {pat : Str} {digits : Nat}
    {result : Str} {rng : List Nat} (fuel : Nat) (hf : 1 ≤ fuel)
    (h : containsStr result pat = true) :
    xLoopOne cb pat digits fuel result rng
      = xLoopOne cb pat digits (fuel - 1)
          (replaceFirst result pat (xSubstitution cb digits (popRng rng).1)) (popRng rng).2 := by
  cases fuel with
  | zero => omega
  | succ f => simp [xLoopOne, h]

lemma xLoopAll_skip {cb : Option (JSNum × JSNum)} {pat : Str} {digits : Nat}
    {rest : List (Str × Nat)} {result : Str} {rng : List Nat}
    (h : containsStr result pat = false) :
    xLoopAll cb ((pat, digits) :: rest) result rng = xLoopAll cb rest result rng := by
  simp [xLoopAll, xLoopOne_exit _ h]

set_option maxHeartbeats 1000000 in
lemma genSpec_shared_range (now : JSDate) (r1 r2 : Nat) (rest : List Nat) :
    generateSpecifierValue (strL "XX XX") sharedRangePattern none none now
        (r1 :: r2 :: rest)
      = natToChars (10 + r1 % 3) ++ [' '] ++ natToChars (10 + r2 % 3) := by
  have hxx : strL "XX" = 'X' :: strL "X" := by decide
  have hx : strL "X" = 'X' :: strL "" := by decide
  have h1 : containsStr (strL "XX XX") (strL "YYYY MM DD") = false := by decide
  have h2 : containsStr (strL "XX XX") (strL "YYYYMMDD") = false := by decide
  have h3 : containsStr (strL "XX XX") (strL "YYYY MM") = false := by decide
  have h4 : containsStr (strL "XX XX") (strL "Month DD, YYYY") = false := by decide
  have h5 : containsStr (strL "XX XX") (strL "YYYY") = false := by decide
  have h6 : containsStr (strL "XX XX") (strL "HHMMSS") = false := by decide
  have hfind : sharedRangePattern.constraints.find? (fun c => c.ctype == strL "range")
      = some ⟨strL "range", CVal.str (strL "10-12")⟩ := by decide
  have hpar : parseRangeConstraint (CVal.str (strL "10-12")).toChars
      = some (some 10, some 12) := by decide
  have hrep1 : ∀ b : Str, replaceFirst (strL "XX XX") (strL "XX") b = b ++ strL " XX" := by
    intro b
    rw [replaceFirst_of_hasPre (show hasPre (strL "XX XX") (strL "XX") = true by decide)]
    rfl
  have hcon2 : ∀ a : Nat, containsStr (natToChars a ++ strL " XX") (strL "XX") = true := by
    intro a
    rw [hxx, containsStr_append_left (natToChars_not_X a)]
    decide
  have hrep2 : ∀ (a : Nat) (b : Str),
      replaceFirst (natToChars a ++ strL " XX") (strL "XX") b
        = natToChars a ++ ([' '] ++ (b ++ [])) := by
    intro a b
    rw [hxx, replaceFirst_append_left (natToChars_not_X a)]
    rw [show strL " XX" = [' '] ++ ('X' :: strL "X") from by decide]
    rw [replaceFirst_append_left (by decide)]
    rw [replaceFirst_of_hasPre (by decide)]
    rfl
  have hcon3 : ∀ a b : Nat,
      containsStr (natToChars a ++ ([' '] ++ (natToChars b ++ []))) (strL "XX") = false := by
    intro a b
    rw [hxx, containsStr_append_left (natToChars_not_X a),
      containsStr_append_left (show 'X' ∉ [' '] by decide),
      containsStr_append_left (natToChars_not_X b)]
    decide
  have hcon4 : ∀ a b : Nat,
      containsStr (natToChars a ++ ([' '] ++ (natToChars b ++ []))) (strL "X") = false := by
    intro a b
    rw [hx, containsStr_append_left (natToChars_not_X a),
      containsStr_append_left (show 'X' ∉ [' '] by decide),
      containsStr_append_left (natToChars_not_X b)]
    decide
  simp only [generateSpecifierValue, h1, h2, h3, h4, h5, h6, Bool.false_eq_true, if_false,
    Option.getD_none, ne_eq, not_true_eq_false, reduceCtorEq, hfind, hpar]
  rw [if_neg (show ¬(strL "XX XX" = ([] : Str)) by decide)]
  simp only [xPatternsList]
  rw [xLoopAll_skip (show containsStr (strL "XX XX") (strL "XXXX") = false by decide)]
  rw [xLoopAll_skip (show containsStr (strL "XX XX") (strL "XXX") = false by decide)]
  simp only [xLoopAll]
  rw [xLoopOne_step2 _ (by omega)
    (show containsStr (strL "XX XX") (strL "XX") = true by decide)]
  simp only [popRng, sharedSub, hrep1]
  rw [xLoopOne_step2 _ (by decide) (hcon2 _)]
  simp only [popRng, sharedSub, hrep2]
  rw [xLoopOne_exit _ (hcon3 _ _)]
  simp only [xLoopAll]
  rw [xLoopOne_exit _ (hcon4 _ _)]
  simp

lemma notX_padStart {l : Str} (n : Nat) (h : 'X' ∉ l) : 'X' ∉ padStart l n '0' := by
  intro hm
  unfold padStart at hm
  rcases List.mem_append.mp hm with hm | hm
  · have := List.eq_of_mem_replicate hm
    simp at this
  · exact h hm

set_option maxHeartbeats 1000000 in
lemma genSpec_fallback_default (now : JSDate) (r : Nat) (rest : List Nat) :
    generateSpecifierValue (strL "XX") nonTwoPartPattern none none now (r :: rest)
      = padStart (natToChars (r % 100)) 2 '0' := by
  have h1 : containsStr (strL "XX") (strL "YYYY MM DD") = false := by decide
  have h2 : containsStr (strL "XX") (strL "YYYYMMDD") = false := by decide
  have h3 : containsStr (strL "XX") (strL "YYYY MM") = false := by decide
  have h4 : containsStr (strL "XX") (strL "Month DD, YYYY") = false := by decide
  have h5 : containsStr (strL "XX") (strL "YYYY") = false := by decide
  have h6 : containsStr (strL "XX") (strL "HHMMSS") = false := by decide
  have hfind : nonTwoPartPattern.constraints.find? (fun c => c.ctype == strL "range")
      = some ⟨strL "range", CVal.str (strL "123")⟩ := by decide
  have hpar : parseRangeConstraint (CVal.str (strL "123")).toChars = none := by decide
  have hsub : ∀ r : Nat, xSubstitution none 2 r = padStart (natToChars (r % 100)) 2 '0' := by
    intro r
    simp only [xSubstitution]
    congr 2
    unfold getRandomInt
    norm_num
  have hrep : ∀ b : Str, replaceFirst (strL "XX") (strL "XX") b = b ++ [] := by
    intro b
    rw [replaceFirst_of_hasPre (show hasPre (strL "XX") (strL "XX") = true by decide)]
    rfl
  have hnX : ∀ rn : Nat, 'X' ∉ padStart (natToChars rn) 2 '0' ++ ([] : Str) :=
    fun rn => notX_append (notX_padStart 2 (natToChars_not_X rn)) (by decide)
  have hcon2 : ∀ rn : Nat,
      containsStr (padStart (natToChars rn) 2 '0' ++ ([] : Str)) (strL "XX") = false := by
    intro rn
    rw [show strL "XX" = 'X' :: strL "X" from by decide]
    exact containsStr_eq_false (hnX rn)
  have hcon3 : ∀ rn : Nat,
      containsStr (padStart (natToChars rn) 2 '0' ++ ([] : Str)) (strL "X") = false := by
    intro rn
    rw [show strL "X" = 'X' :: strL "" from by decide]
    exact containsStr_eq_false (hnX rn)
  simp only [generateSpecifierValue, h1, h2, h3, h4, h5, h6, Bool.false_eq_true, if_false,
    Option.getD_none, ne_eq, not_true_eq_false, reduceCtorEq, hfind, hpar]
  rw [if_neg (show ¬(strL "XX" = ([] : Str)) by decide)]
  simp only [xPatternsList]
  rw [xLoopAll_skip (show containsStr (strL "XX") (strL "XXXX") = false by decide)]
  rw [xLoopAll_skip (show containsStr (strL "XX") (strL "XXX") = false by decide)]
  simp only [xLoopAll]
  rw [xLoopOne_step2 _ (by decide)
    (show containsStr (strL "XX") (strL "XX") = true by decide)]
  simp only [popRng, hsub, hrep]
  rw [xLoopOne_exit _ (hcon2 _)]
  simp only [xLoopAll]
  rw [xLoopOne_exit _ (hcon3 _)]
  simp

lemma head_dropWhile_isJSWS {l : Str} {c : Char}
    (h : (l.dropWhile isJSWS).head? = some c) : isJSWS c = false := by
  induction l with
  | nil => simp [List.dropWhile] at h
  | cons a as ih =>
      rw [List.dropWhile_cons] at h
      by_cases ha : isJSWS a = true
      · rw [if_pos ha] at h
        exact ih h
      · rw [if_neg ha] at h
        simp at h
        rw [← h]
        simpa using ha

lemma trimStr_getLast {l : Str} {c : Char}
    (h : (trimStr l).getLast? = some c) : isJSWS c = false := by
  unfold trimStr at h
  rw [List.getLast?_reverse] at h
  exact head_dropWhile_isJSWS h

lemma trimStr_head {l : Str} {c : Char}
    (h : (trimStr l).head? = some c) : isJSWS c = false := by
  have hsplit : (l.dropWhile isJSWS) =
      trimStr l ++ (((l.dropWhile isJSWS).reverse.takeWhile isJSWS)).reverse := by
    unfold trimStr
    conv_lhs => rw [← List.reverse_reverse (l.dropWhile isJSWS)]
    conv_lhs => rw [← List.takeWhile_append_dropWhile isJSWS (l.dropWhile isJSWS).reverse]
    rw [List.reverse_append]
  cases htr : trimStr l with
  | nil => rw [htr] at h; simp at h
  | cons d ds =>
      rw [htr] at h
      simp at h
      rw [htr] at hsplit
      have : (l.dropWhile isJSWS).head? = some d := by
        rw [hsplit]
        simp
      exact h ▸ head_dropWhile_isJSWS this

lemma importSimpleTerms_aux (l : List PageTerm) (acc : List PageTerm) (s f : Nat)
    (hv : ∀ t ∈ l, validateSearchPattern t = true) :
    l.foldl
      (fun acc t =>
        if validateSearchPattern t then (acc.1 ++ [setCustomTrue t], acc.2.1 + 1, acc.2.2)
        else (acc.1, acc.2.1, acc.2.2 + 1)) (acc, s, f)
      = (acc ++ l.map setCustomTrue, s + l.length, f) := by
  induction l generalizing acc s with
  | nil => simp
  | cons t ts ih =>
      have hvt : validateSearchPattern t = true := hv t (List.mem_cons_self t ts)
      simp only [List.foldl_cons, hvt, if_true]
      rw [ih (acc ++ [setCustomTrue t]) (s + 1) (fun x hx => hv x (List.mem_cons_of_mem _ hx))]
      exact congrArg₂ Prod.mk (by simp)
        (congrArg₂ Prod.mk (by simp only [List.length_cons]; omega) rfl)

lemma setCustomTrue_eq_self {t : PageTerm} (h : t.isCustom = true) :
    setCustomTrue t = t := by
  obtain ⟨n, sp, g, a, c, b, d1, d2, d3⟩ := t
  simp only [setCustomTrue] at *
  simp_all

lemma generateRandomSearchTerm_ok {patterns : List MLPattern}
    {options : Option GenerateOptions} {now : JSDate} {rng : List Nat} {s : Str}
    (h : generateRandomSearchTerm patterns options now rng = Except.ok s) :
    ∃ l, s = trimStr l := by
  simp only [generateRandomSearchTerm] at h
  split at h
  · cases h
  · injection h with h2
    exact ⟨_, h2.symm⟩

/-- C1 (counterexample): rendering the year template of a pattern whose
admissible-year constraint set is 2012-2013 (age unspecified, no override
date, clock year 2024, raw draw 6) produces 2016, a year outside the
constraint set — the claim that no render leaves the set fails. -/
theorem c1_counterexample :
    generateSpecifierValue (strL "YYYY") yearConstrainedPattern none none
        ⟨2024, 6, 1, 12, 0, 0⟩ [6] = strL "2016"
    ∧ strL "2016" ≠ strL "2012" ∧ strL "2016" ≠ strL "2013" := by
  decide

/-- C1 (amended): the renderer ignores year constraints entirely: with no
caller-supplied override date the year token is drawn from the age-based
rule alone — the clock year for a new pattern, uniformly from 2010-2015
for an old one, uniformly from 2010 to the clock year otherwise — and the
result is unchanged under any replacement of the pattern's constraint
list. -/
theorem c1_amended_age_based_year (p : MLPattern) (cs : List Constraint)
    (now : JSDate) (r : Nat) (rest : List Nat) (h : 2010 ≤ now.year) :
    generateSpecifierValue (strL "YYYY") p none none now (r :: rest)
        = natToChars (ageBasedYear p.age now.year r)
    ∧ generateSpecifierValue (strL "YYYY") { p with constraints := cs } none none now
        (r :: rest)
      = generateSpecifierValue (strL "YYYY") p none none now (r :: rest)
    ∧ 2010 ≤ ageBasedYear p.age now.year r
    ∧ ageBasedYear p.age now.year r ≤ max now.year 2015 := by
  have h1 := genSpec_yyyy_eval p now (r :: rest)
  have h2 := genSpec_yyyy_eval { p with constraints := cs } now (r :: rest)
  simp only [popRng] at h1 h2
  refine ⟨h1, by rw [h1, h2], ?_, ?_⟩
  · cases hp : p.age <;> simp only [ageBasedYear]
    · omega
    · exact (getRandomInt_bounds r (by omega)).1
    · exact (getRandomInt_bounds r (by omega)).1
  · cases hp : p.age <;> simp only [ageBasedYear]
    · omega
    · exact le_trans (getRandomInt_bounds r (by omega)).2 (le_max_right _ _)
    · exact le_trans (getRandomInt_bounds r h).2 (le_max_left _ _)

/-- C1 (witness): the amended theorem applied to the year-constrained
pattern at clock year 2024 with raw draw 6. -/
theorem c1_amended_age_based_year_witness :
    generateSpecifierValue (strL "YYYY") yearConstrainedPattern none none
        ⟨2024, 6, 1, 12, 0, 0⟩ (6 :: [])
      = natToChars (ageBasedYear yearConstrainedPattern.age 2024 6) :=
  (c1_amended_age_based_year yearConstrainedPattern [] ⟨2024, 6, 1, 12, 0, 0⟩ 6 []
    (by decide)).1

/-- C2 (counterexample): for an old-age pattern with no override date and
no date constraints, the rendered year token at clock year 2026 (raw draw
0) is 2010, which lies outside the last 10 years of the clock — the
rendered year is not drawn from within the past 3650 days. -/
theorem c2_counterexample :
    generateSpecifierValue (strL "YYYY") oldYearPattern none none
        ⟨2026, 10, 11, 0, 0, 0⟩ [0] = strL "2010"
    ∧ (2010 : Nat) < 2026 - 10 := by
  decide

/-- C2 (amended): with no date-constraint properties on the record and the
old range in force (selected age any or old), randomSpecDay returns
exactly today minus the draw reduced mod 3650 — a uniform pick among the
3650 most recent days — and the year of that day lies within the last 10
calendar years of the clock inclusive; the renderer's own old-age year
token, however, is drawn from the fixed range 2010-2015 independent of
the clock. -/
theorem c2_amended_random_day_window (p : PageTerm) (sel : AgeSel) (today r : Nat)
    (mlp : MLPattern) (now : JSDate) (r2 : Nat) (rest : List Nat)
    (hb : p.dateBefore = none) (ha : p.dateAfter = none) (he : p.dateExact = none)
    (hage : p.age = Age.old) (hsel : sel = AgeSel.any ∨ sel = AgeSel.old)
    (htoday : 3650 ≤ today) (hmla : mlp.age = Age.old) :
    randomSpecDay sel p today [r] = today - r % 3650
    ∧ yearOfDay today - 10 ≤ yearOfDay (today - r % 3650)
    ∧ yearOfDay (today - r % 3650) ≤ yearOfDay today
    ∧ generateSpecifierValue (strL "YYYY") mlp none none now (r2 :: rest)
        = natToChars (getRandomInt 2010 2015 r2) := by
  have hmod : r % 3650 < 3650 := Nat.mod_lt _ (by omega)
  refine ⟨?_, ?_, yearOfDay_mono (Nat.sub_le _ _), ?_⟩
  · rcases hsel with rfl | rfl <;>
      simp [randomSpecDay, hage, hb, ha, he, popRng]
  · have := yearOfDay_sub_le today (r % 3650) hmod (by omega)
    omega
  · have h1 := genSpec_yyyy_eval mlp now (r2 :: rest)
    rw [hmla] at h1
    simpa [ageBasedYear, popRng] using h1

/-- C2 (witness): the amended theorem applied to the old-age record at day
number 4000 with raw draw 7 and to the old-age pattern with draw 0. -/
theorem c2_amended_random_day_window_witness :
    randomSpecDay AgeSel.old oldPagePattern 4000 [7] = 4000 - 7 % 3650 :=
  (c2_amended_random_day_window oldPagePattern AgeSel.old 4000 7 oldYearPattern
    ⟨2026, 10, 11, 0, 0, 0⟩ 0 [] rfl rfl rfl rfl (Or.inr rfl) (by decide) rfl).1

/-- C3 (counterexample): a template carrying both the calendar token YYYY
and the clock token HHMMSS renders (age new, clock 2024-06-01 12:30:45)
with only the calendar token replaced: HHMMSS survives verbatim, refuting
the claim that every recognized token present is replaced. -/
theorem c3_counterexample :
    generateSpecifierValue (strL "YYYY HHMMSS") newClockPattern none none
        ⟨2024, 6, 1, 12, 30, 45⟩ [] = strL "2024 HHMMSS"
    ∧ containsStr (strL "2024 HHMMSS") (strL "HHMMSS") = true := by
  decide

/-- C3 (amended): the calendar and clock tokens form one if/else-if chain,
so at most one such token group — the first match in the fixed priority
order — is replaced, and only its first occurrence; for every pattern,
clock and randomness, the template with both YYYY and HHMMSS renders to
the age-based year followed by the untouched text, HHMMSS included.
Numeric X runs (handled after the chain) are still all replaced, and a
template with no recognized tokens passes through verbatim. -/
theorem c3_amended_first_token_only (p : MLPattern) (now : JSDate) (rng : List Nat) :
    generateSpecifierValue (strL "YYYY HHMMSS") p none none now rng
      = natToChars (ageBasedYear p.age now.year (popRng rng).1) ++ strL " HHMMSS" :=
  genSpec_yyyy_hhmmss_eval p now rng

/-- C4 (counterexample): the malformed two-part range value gg-gg is not
treated as absent: it parses to NaN bounds that are applied, so the
four-run template renders the padded NaN string 0NaN instead of the
digit-count default that the same draw produces without the constraint. -/
theorem c4_counterexample :
    generateSpecifierValue (strL "XXXX") badRangePattern none none
        ⟨2024, 6, 1, 0, 0, 0⟩ [5] = strL "0NaN"
    ∧ generateSpecifierValue (strL "XXXX") noConstraintPattern none none
        ⟨2024, 6, 1, 0, 0, 0⟩ [5] = strL "0005"
    ∧ strL "0NaN" ≠ strL "0005" := by
  decide

/-- C4 (amended): a well-formed two-part range value is parsed base-16
exactly when a hex letter occurs (10-12 decimally, A-F as 10-15), and then
every numeric run of the template draws from that same bound, zero-padded;
a non-two-part value (123, 1-2-3) yields no constraint and the run falls
back to its digit-count default range; but a two-part value with
non-numeric sides (gg-gg) parses to NaN bounds that are applied rather
than treated as absent. -/
theorem c4_amended_range_constraint (now : JSDate) (r1 r2 r : Nat)
    (rest rest2 : List Nat) :
    parseRangeConstraint (strL "10-12") = some (some 10, some 12)
    ∧ parseRangeConstraint (strL "A-F") = some (some 10, some 15)
    ∧ parseRangeConstraint (strL "123") = none
    ∧ parseRangeConstraint (strL "1-2-3") = none
    ∧ generateSpecifierValue (strL "XX XX") sharedRangePattern none none now
        (r1 :: r2 :: rest)
      = natToChars (10 + r1 % 3) ++ [' '] ++ natToChars (10 + r2 % 3)
    ∧ (10 ≤ 10 + r1 % 3 ∧ 10 + r1 % 3 ≤ 12 ∧ 10 ≤ 10 + r2 % 3 ∧ 10 + r2 % 3 ≤ 12)
    ∧ generateSpecifierValue (strL "XX") nonTwoPartPattern none none now (r :: rest2)
        = padStart (natToChars (r % 100)) 2 '0'
    ∧ parseRangeConstraint (strL "gg-gg") = some (none, none) := by
  refine ⟨by decide, by decide, by decide, by decide,
    genSpec_shared_range now r1 r2 rest,
    ⟨by omega, by omega, by omega, by omega⟩,
    genSpec_fallback_default now r rest2, by decide⟩

/-- C5 (counterexample): over the four equally likely draw pairs on a
catalog of one single-specifier entry and one two-specifier entry (all
keys active), the single-specifier unit is selected twice while each unit
of the two-specifier entry is selected once — the eligible units are not
equiprobable, refuting the uniform-over-units claim. -/
theorem c5_counterexample :
    selectionGrid.count (some (unitPatternA, some (strL "s"))) = 2
    ∧ selectionGrid.count (some (unitPatternB, some (strL "t"))) = 1
    ∧ selectionGrid.count (some (unitPatternB, some (strL "u"))) = 1
    ∧ (2 : Nat) ≠ 1 := by
  decide

/-- C5 (amended): selection is two-stage — a pattern uniformly from the
active list, then a specifier uniformly from that pattern's selected
specifiers — so a nonempty active list always yields a unit, but a unit's
probability is 1 over (number of active patterns times that pattern's
selected specifiers): on the example catalog the single-specifier unit is
drawn in 2 of 4 equally likely draws and each two-specifier unit in 1. -/
theorem c5_amended_two_stage_selection (active : List PageTerm) (sn : List Str)
    (r1 r2 : Nat) (h : active ≠ []) :
    (getRandomActiveSearchTerm active sn r1 r2).isSome = true
    ∧ selectionGrid.count (some (unitPatternA, some (strL "s"))) = 2
    ∧ selectionGrid.count (some (unitPatternB, some (strL "t"))) = 1
    ∧ selectionGrid.count (some (unitPatternB, some (strL "u"))) = 1 := by
  refine ⟨?_, by decide, by decide, by decide⟩
  cases active with
  | nil => exact absurd rfl h
  | cons a as => simp [getRandomActiveSearchTerm]

/-- C5 (witness): the amended theorem applied to a one-entry active list. -/
theorem c5_amended_two_stage_selection_witness :
    (getRandomActiveSearchTerm [unitPatternA] [] 0 0).isSome = true :=
  (c5_amended_two_stage_selection [unitPatternA] [] 0 0 (by decide)).1

/-- C6: empty active sets match everything: whenever the active-category
set is empty or contains the entry's genre, and the active name-key set is
empty or contains one of the entry's name-plus-specifier keys, the filter
reduces exactly to the age predicate — the entry is included iff the age
check admits it, so neither empty set excludes anything. -/
theorem c6_empty_sets_match_all (sg sn : List Str) (sa : AgeSel) (p : PageTerm)
    (hg : sg = [] ∨ p.genre ∈ sg)
    (hn : sn = [] ∨ ∃ s ∈ p.specifiers, displayKey p.name s ∈ sn) :
    activeFilter sg sn sa p = agePass sa p.age := by
  have hname : ¬(sn ≠ []
      ∧ (p.specifiers.any fun s => decide (displayKey p.name s ∈ sn)) = false) := by
    rcases hn with h | h
    · simp [h]
    · obtain ⟨s, hs, hk⟩ := h
      rintro ⟨-, hfalse⟩
      have hany : (p.specifiers.any fun s => decide (displayKey p.name s ∈ sn)) = true := by
        rw [List.any_eq_true]
        exact ⟨s, hs, by simpa using hk⟩
      rw [hany] at hfalse
      cases hfalse
  have hgenre : ¬(sg ≠ [] ∧ p.genre ∉ sg) := by
    rcases hg with h | h <;> simp [h]
  unfold activeFilter agePass
  rw [if_neg hgenre]
  cases sa <;> cases hp : p.age <;>
    simp [ageMatches, hp, hname, beq_iff_eq] <;>
    exact hn

/-- C6 (witness): both sets empty on the unspecified-age entry, age mode
any: the filter equals the age predicate there. -/
theorem c6_empty_sets_match_all_witness :
    activeFilter [] [] AgeSel.any unspecifiedAgeEntry
      = agePass AgeSel.any unspecifiedAgeEntry.age :=
  c6_empty_sets_match_all [] [] AgeSel.any unspecifiedAgeEntry (Or.inl rfl) (Or.inl rfl)

/-- C7 (code bug): with age mode new and a nonempty active name-key set
containing no key of the unspecified-age entry, the filter still returns
true for the entry: the age block's early accept for unspecified-age
patterns bypasses the name/specifier predicate, contradicting the
conjunction of predicates the specification requires. -/
theorem c7_code_bug_evaluation :
    activeFilter [] [strL "Foo|||S"] AgeSel.new unspecifiedAgeEntry = true
    ∧ ¬(∃ s ∈ unspecifiedAgeEntry.specifiers,
        displayKey unspecifiedAgeEntry.name s ∈ [strL "Foo|||S"])
    ∧ ([strL "Foo|||S"] : List Str) ≠ [] := by
  decide

/-- C8 (counterexample): the URL assembler appends the fixed
sort-by-upload-date parameter on every call — here a render with no
qualifier, as the age mode any produces — refuting the claim that no sort
parameter is appended for age any. -/
theorem c8_counterexample :
    openYouTubeSearch (strL "Test") false false []
      = strL "https://www.youtube.com/results?search_query=Test&sp=CAI%253D"
    ∧ containsStr (openYouTubeSearch (strL "Test") false false [])
        (strL "&sp=CAI%253D") = true := by
  decide

/-- C8 (amended): every produced URL is the fixed endpoint plus the
percent-encoded query plus the fixed sort-by-upload-date parameter,
regardless of age; the query is the rendered text alone, or — when
advanced settings, the date override and a date are all present — the text,
one space, and a before qualifier in slash form. -/
theorem c8_amended_fixed_sort_param :
    (∀ (t : Str) (adv ov : Bool) (bd : Str), ∃ q : Str,
        openYouTubeSearch t adv ov bd
          = strL "https://www.youtube.com/results?search_query="
            ++ encodeURIComponent q ++ strL "&sp=CAI%253D")
    ∧ openYouTubeSearch (strL "Test") false false []
        = strL "https://www.youtube.com/results?search_query=Test&sp=CAI%253D"
    ∧ openYouTubeSearch (strL "Test") true true (strL "2024-06-01")
        = strL "https://www.youtube.com/results?search_query=Test%20before%3A2024%2F06%2F01&sp=CAI%253D" := by
  refine ⟨fun t adv ov bd => ⟨_, rfl⟩, by decide, by decide⟩

/-- C9: exporting the stored user-created record set and re-importing it
in replace mode keeps every record that validates — which every record the
application stores does — unchanged except for the user-created flag being
force-set, with a success count of the whole set and zero failures; and
when every stored record already carries the flag, the round trip is the
identity. -/
theorem c9_export_import_round_trip (stored : List PageTerm)
    (hv : ∀ t ∈ stored, validateSearchPattern t = true) :
    importSimpleTerms (exportCustomTerms stored)
      = (stored.map setCustomTrue, stored.length, 0)
    ∧ ((∀ t ∈ stored, t.isCustom = true) → stored.map setCustomTrue = stored) := by
  constructor
  · unfold exportCustomTerms importSimpleTerms
    have h := importSimpleTerms_aux stored [] 0 0 hv
    simpa using h
  · intro hall
    induction stored with
    | nil => rfl
    | cons t ts ih =>
        simp only [List.map_cons]
        rw [setCustomTrue_eq_self (hall t (List.mem_cons_self t ts))]
        rw [ih (fun x hx => hv x (List.mem_cons_of_mem _ hx))
          (fun x hx => hall x (List.mem_cons_of_mem _ hx))]

/-- C9 (witness): the round trip on a one-record stored set. -/
theorem c9_export_import_round_trip_witness :
    importSimpleTerms (exportCustomTerms [sampleCustomTerm])
      = (List.map setCustomTrue [sampleCustomTerm], 1, 0) :=
  (c9_export_import_round_trip [sampleCustomTerm] (by decide)).1

/-- C10: every search term generateRandomSearchTerm returns carries no
leading or trailing whitespace (the name-specifier concatenation is
trimmed before being returned); a pattern whose name has trailing
whitespace and whose specifier is empty yields the trimmed name, and a
pattern with empty name and empty specifier yields the empty string. -/
theorem c10_trimmed_output :
    (∀ (patterns : List MLPattern) (options : Option GenerateOptions) (now : JSDate)
        (rng : List Nat) (s : Str),
        generateRandomSearchTerm patterns options now rng = Except.ok s →
        (∀ c, s.head? = some c → isJSWS c = false)
        ∧ (∀ c, s.getLast? = some c → isJSWS c = false))
    ∧ generateRandomSearchTerm [trailingNamePattern] none ⟨2024, 6, 1, 0, 0, 0⟩ [0]
        = Except.ok (strL "Name")
    ∧ generateRandomSearchTerm [emptyNamePattern] none ⟨2024, 6, 1, 0, 0, 0⟩ [0]
        = Except.ok [] := by
  refine ⟨?_, by rfl, by rfl⟩
  intro patterns options now rng s h
  obtain ⟨l, rfl⟩ := generateRandomSearchTerm_ok h
  exact ⟨fun c hc => trimStr_head hc, fun c hc => trimStr_getLast hc⟩

/-- C10 (witness): the no-edge-whitespace guarantee applied to the
trailing-whitespace pattern's concrete render. -/
theorem c10_trimmed_output_witness :
    (∀ c, (strL "Name").head? = some c → isJSWS c = false)
    ∧ (∀ c, (strL "Name").getLast? = some c → isJSWS c = false) :=
  c10_trimmed_output.1 [trailingNamePattern] none ⟨2024, 6, 1, 0, 0, 0⟩ [0]
    (strL "Name") (by rfl)
